import Mathlib

/-!
The `jump` command: instance table, selection and ssh hand-off.

A shallow embedding of `main.go` and `metadata.go`.

* Go `string` values are byte sequences (`GoString`).
* A Go function that performs I/O, may end the process (`os.Exit`, `log.Fatal*`,
  a run-time fault, a successful `syscall.Exec`) or may return, is a `Proc`: the list of
  effects it performed, in order, and its return value when it returns.
* What the outside world answers (the directory call, standard input, `exec`, the bastion
  dial, the metadata service) is an explicit input of the model.
-/

namespace Jump

/-! ## Strings and errors -/

/-- Go strings: finite sequences of bytes. -/
abbrev GoString := List UInt8

/-- Bytes of an ASCII source literal. -/
def str (s : String) : GoString := s.data.map (fun c => c.toNat.toUInt8)

/-- Go `error` values, identified by their message. -/
abbrev GoError := GoString

/-- Decimal text of `fmt.Sprint(n)` for an integer operand. -/
def Sprint (n : Int) : GoString := str (toString n)

/-- The verbs of `fmt.Sprintf` that the program uses, on string operands: `%v` writes the next
operand, `%%` writes a percent sign; every other byte is copied (no other verb occurs in the
program's formats). -/
def Sprintf : GoString → List GoString → GoString
  | [], _ => []
  | c :: rest, args =>
    if c = 37 then
      match rest with
      | [] => str "%!(NOVERB)"
      | d :: rest2 =>
        if d = 37 then 37 :: Sprintf rest2 args
        else if d = 118 then
          match args with
          | a :: more => a ++ Sprintf rest2 more
          | [] => str "%!v(MISSING)" ++ Sprintf rest2 []
        else c :: d :: Sprintf rest2 args
    else c :: Sprintf rest args

/-! ## Effects -/

/-- One line of a rendered table. -/
inductive TableLine
  | border
  | cells (row : List GoString)
deriving DecidableEq, Repr

/-- Observable effects, in program order. -/
inductive Event
  /-- Call of `time.Now()` at the top of a refresh cycle. -/
  | Now
  /-- Call of `time.Since(queryStart)`. -/
  | Since
  /-- The `select` of the refresh loop; `finished` when the `finish` channel won. -/
  | Select (finished : Bool)
  /-- Call of `ConfigureHTTP(b)`; `ConfigureHTTP(false)` switches the default transport to
  direct dialing. -/
  | ConfigureHTTP (b : Bool)
  /-- Entry into `DescribeInstances`. -/
  | DescribeInstancesCall
  /-- Return of `DescribeInstances`; `ok` when `err == nil`. -/
  | DescribeInstancesReturn (ok : Bool)
  /-- The call `InstancesFromEC2Result(ec2Instances)`, which builds the instance records. -/
  | InstancesFromEC2Result
  /-- Call of `table.Render()`: the lines written to standard error. -/
  | TableRender (lines : List TableLine)
  /-- Call of `s.Scan()` on standard input. -/
  | ScanStdin
  /-- Escape sequence moving the cursor up `n` lines. -/
  | CursorUp (n : Int)
  /-- Escape sequence clearing to the end of the screen. -/
  | ClearToEndOfScreen
  /-- Call of `fmt.Fprintf(os.Stderr, format, operands...)`. -/
  | Fprintf (format : GoString) (operands : List GoString)
  /-- Call of `log.Printf(format, operands...)`. -/
  | LogPrintf (format : GoString) (operands : List GoString)
  /-- Call of `syscall.Exec(path, argv, os.Environ())`. -/
  | Exec (path : GoString) (argv : List GoString)
  /-- Call of `log.Fatal`, `log.Fatalln` or `log.Fatalf`: a diagnostic line, then exit status 1. -/
  | Fatal (operands : List GoString)
  /-- Call of `os.Exit(code)`. -/
  | Exit (code : Int)
  /-- A run-time fault (index or slice bounds out of range). -/
  | Panic (msg : GoString)
  /-- Call of `os.Getenv(name)`. -/
  | Getenv (name : GoString)
  /-- Call of `net.Dial(network, address)`. -/
  | NetDial (network address : GoString)
  /-- Call of `ssh.Dial("tcp", address, config)`. -/
  | SSHDial (address : GoString)
  /-- Assignment `http.DefaultClient.Transport = t` with `t.Dial = conn.Dial`. -/
  | SetTunnelTransport
  /-- Call of `http.Get(url)`. -/
  | HTTPGet (url : GoString)
  /-- Call of `resp.Body.Close()`. -/
  | BodyClose
deriving DecidableEq, Repr

/-- A run of a Go function: the effects performed and, when the function returns, its value.
`result = none` means control never came back to the caller. -/
structure Proc (α : Type) where
  trace : List Event
  result : Option α
deriving DecidableEq, Repr

/-- Return without effects. -/
def Proc.pure {α : Type} (a : α) : Proc α := ⟨[], some a⟩

/-- Sequencing: the continuation runs only when the first part returns. -/
def Proc.bind {α β : Type} (m : Proc α) (f : α → Proc β) : Proc β :=
  match m.result with
  | none => ⟨m.trace, none⟩
  | some a => ⟨m.trace ++ (f a).trace, (f a).result⟩

instance : Monad Proc where
  pure := Proc.pure
  bind := Proc.bind

/-- Perform one effect and go on. -/
def emit (e : Event) : Proc Unit := ⟨[e], some ()⟩

/-- Perform one effect that ends the process. -/
def halt {α : Type} (e : Event) : Proc α := ⟨[e], none⟩

/-- Go `s[lo:]`. -/
def sliceFrom (s : GoString) (lo : Nat) : Proc GoString :=
  if lo ≤ s.length then pure (s.drop lo)
  else halt (.Panic (str "slice bounds out of range"))

/-- Go `s[:hi]` for an `int` bound. -/
def sliceTo (s : GoString) (hi : Int) : Proc GoString :=
  if 0 ≤ hi ∧ hi ≤ s.length then pure (s.take hi.toNat)
  else halt (.Panic (str "slice bounds out of range"))

/-- Go `xs[n]` for an `int` index. -/
def index {α : Type} (xs : List α) (n : Int) : Proc α :=
  if 0 ≤ n then
    match xs.get? n.toNat with
    | some x => pure x
    | none => halt (.Panic (str "index out of range"))
  else halt (.Panic (str "index out of range"))

/-! ## Data and the parts of the program outside the two files -/

/-- An instance record as `ShowInstances` and `InvokeSSH` read it. `Name` and `PrettyState`
hold what the methods of those names return; each `...Ping` field holds the `String()` of the
value received from the channel of that name. -/
structure Instance where
  InstanceID : GoString
  PrivateIP : GoString
  Up : Int
  Name : GoString
  PrettyState : GoString
  ICMPPing : GoString
  SSHPing : GoString
  HTTPPing : GoString
  HTTPSPing : GoString
deriving DecidableEq, Repr

/-- Functions the two files call but do not define; `R` is the type of a successful
`DescribeInstances` response. `Sscan text` is what `fmt.Sscan(text, &n)` yields for an `int`
operand: the value stored in `n`, or the error. `rowLines cells` is the number of terminal
lines the tablewriter library uses for one row of these cells: one when every cell stays on a
single line, more when the library wraps a long cell or a cell holds a line break. -/
structure Externals (R : Type) where
  InstancesFromEC2Result : R → List Instance
  fmtDuration : Int → GoString
  Sscan : GoString → Except GoError Int
  rowLines : List GoString → Nat

/-- What the `bufio.Scanner` on standard input reports: `s.Scan()`, `s.Err()`, `s.Text()`. -/
structure Stdin where
  scan : Bool
  err : Option GoError
  text : GoString
deriving DecidableEq, Repr

/-- The `cli.Context` as the program reads it: `c.IsSet("n")`, `c.Int("n")`, `c.Args()`, and
the value given for the `bastion` flag (command line or `JUMP_BASTION`), if any. -/
structure Context where
  nSet : Bool
  n : Int
  Args : List GoString
  bastionFlag : Option GoString
deriving DecidableEq, Repr

/-- The answers `JumpTo` gets from outside: the directory response of `client`, standard input,
and the error of `syscall.Exec` (`none`: the process image was replaced). -/
structure World (R : Type) where
  describe : Except GoError R
  stdin : Stdin
  execErr : Option GoError

/-- One refresh cycle of `Watch` as seen from outside: the directory response, and whether the
`finish` channel wins the `select` at the end of the cycle. -/
structure Cycle (R : Type) where
  describe : Except GoError R
  finish : Bool

/-- The answers the main action gets before `JumpTo`: `SSH_AUTH_SOCK`, the error of the agent
socket dial, the error of `ssh.Dial` per address, and for the metadata request the error of
`http.Get` per URL or else what `ioutil.ReadAll(resp.Body)` yields. -/
structure Startup where
  authSock : GoString
  agentDialErr : Option GoError
  sshDialErr : GoString → Option GoError
  httpGet : GoString → Except GoError (Except GoError GoString)

/-! ## main.go -/

/-- Value of the constant `N_TABLE_DECORATIONS`. -/
def N_TABLE_DECORATIONS : Int := 4

/-- The header set by `table.SetHeader`. -/
def tableHeader : List GoString :=
  [str "N", str "ID", str "Name", str "S", str "Private", str "Launch",
   str "ICMP", str "SSH", str "HTTP", str "HTTPS"]

/-- Layout of the tablewriter library's `Render` (the library is outside the repository): top
border, the header, separator, the appended rows in order, bottom border, where the header and
each row take as many lines as the library needs for their cells (`rowLines`). -/
def Render {R : Type} (E : Externals R) (header : List GoString)
    (rows : List (List GoString)) : List TableLine :=
  [.border] ++ List.replicate (E.rowLines header) (.cells header) ++ [.border]
    ++ (rows.map (fun row => List.replicate (E.rowLines row) (TableLine.cells row))).flatten
    ++ [.border]

/-- The `range` loop of `ShowInstances` from index `n` on: the rows appended, in order. -/
def ShowInstances.rows {R : Type} (E : Externals R) : Nat → List Instance → Proc (List (List GoString))
  | _, [] => pure []
  | n, i :: rest => do
    let id ← sliceFrom i.InstanceID 2
    let row := [Sprint n, id, i.Name, i.PrettyState, i.PrivateIP, E.fmtDuration i.Up,
                i.ICMPPing, i.SSHPing, i.HTTPPing, i.HTTPSPing]
    let more ← ShowInstances.rows E (n + 1) rest
    pure (row :: more)

/-- Go `ShowInstances`. -/
def ShowInstances {R : Type} (E : Externals R) (instances : List Instance) : Proc Unit := do
  let rows ← ShowInstances.rows E 0 instances
  emit (.TableRender (Render E tableHeader rows))

/-- Go `GetInstanceFromUser`. -/
def GetInstanceFromUser {R : Type} (E : Externals R) (stdin : Stdin) (max : Int) : Proc Int := do
  emit .ScanStdin
  if !stdin.scan then
    -- User closed stdin before we read anything
    halt (.Exit 1)
  else
  match stdin.err with
  | some e => halt (.Fatal [str "Error reading stdin:", e])
  | none =>
  match E.Sscan stdin.text with
  | .error _ => halt (.Fatal [str "Unrecognised input:", stdin.text])
  | .ok n =>
    if n ≥ max then halt (.Fatal [str "%d is not a valid instance", Sprint n])
    else pure n

/-- Go `InvokeSSH`. -/
def InvokeSSH (execErr : Option GoError) (cliArgs : List GoString) (bastion : GoString)
    (inst : Instance) (n : Int) : Proc Unit := do
  emit (.Fprintf ([10] ++ str "-- [ Connecting to %v (%v:%v) ] --" ++ [10, 10])
    [inst.PrivateIP, inst.Name, Sprint n])
  let args := [str "/usr/bin/ssh"]
  let args :=
    if bastion ≠ [] then
      let format := str "ProxyCommand=ssh %v %v %%h %%p"
      let netCat := str "ncat"
      let proxyCommand := Sprintf format [bastion, netCat]
      args ++ [str "-o", proxyCommand]
    else args
  let args := args ++ [inst.PrivateIP]
  let args := args ++ cliArgs
  emit (.LogPrintf (str "exec: %q") args)
  emit (.Exec (str "/usr/bin/ssh") args)
  match execErr with
  | some err => halt (.Fatal [str "Failed to exec:", err])
  | none => ⟨[], none⟩

/-- Go `CursorUp`. -/
def CursorUp (n : Int) : Proc Unit := emit (.CursorUp n)

/-- Go `ClearToEndOfScreen`. -/
def ClearToEndOfScreen : Proc Unit := emit .ClearToEndOfScreen

/-- Go `JumpTo`. -/
def JumpTo {R : Type} (E : Externals R) (w : World R) (c : Context) (bastion : GoString) :
    Proc Unit := do
  emit .DescribeInstancesCall
  match w.describe with
  | .error err =>
    emit (.DescribeInstancesReturn false)
    halt (.Fatal [str "DescribeInstances error:", err])
  | .ok ec2Instances =>
    emit (.DescribeInstancesReturn true)
    -- Do this after querying the AWS endpoint (otherwise vulnerable to MITM.)
    emit (.ConfigureHTTP false)
    emit .InstancesFromEC2Result
    let instances := E.InstancesFromEC2Result ec2Instances
    ShowInstances E instances
    let n ← if !c.nSet then GetInstanceFromUser E w.stdin instances.length else pure c.n
    -- +1 to account for final newline.
    CursorUp (instances.length + N_TABLE_DECORATIONS + 1)
    ClearToEndOfScreen
    let inst ← index instances n
    InvokeSSH w.execErr c.Args bastion inst n

/-- The `for` loop of Go `Watch`, run against the cycles of a script; `goUp` is the closure
held in the variable of that name. When the script is used up the loop is still running. -/
def Watch.loop {R : Type} (E : Externals R) : (Unit → Proc Unit) → List (Cycle R) → Proc Unit
  | _, [] => ⟨[], none⟩
  | goUp, cy :: later => do
    emit .Now
    emit (.ConfigureHTTP true)
    emit .DescribeInstancesCall
    match cy.describe with
    | .error err =>
      emit (.DescribeInstancesReturn false)
      halt (.Fatal [str "DescribeInstances error:", err])
    | .ok ec2Instances =>
      emit (.DescribeInstancesReturn true)
      emit (.ConfigureHTTP false)
      emit .InstancesFromEC2Result
      let instances := E.InstancesFromEC2Result ec2Instances
      goUp ()
      ShowInstances E instances
      emit .Since
      emit (.Select cy.finish)
      if cy.finish then pure ()
      else Watch.loop E (fun _ => CursorUp (instances.length + N_TABLE_DECORATIONS)) later

/-- Go `Watch`: the loop entered with `goUp := func() {}`. -/
def Watch {R : Type} (E : Externals R) (script : List (Cycle R)) : Proc Unit :=
  Watch.loop E (fun _ => pure ()) script

/-- Go `addAgentAuth`: the number of auth methods after the call. -/
def addAgentAuth (s : Startup) (auths : Nat) : Proc Nat := do
  emit (.Getenv (str "SSH_AUTH_SOCK"))
  if s.authSock.length > 0 then
    emit (.NetDial (str "unix") s.authSock)
    match s.agentDialErr with
    | none => pure (auths + 1)
    | some _ => pure auths
  else pure auths

/-! ## metadata.go -/

/-- Go `Metadata`: the body of the metadata resource at `path`, or the error. -/
def Metadata (s : Startup) (path : GoString) : Proc (GoString × Option GoError) := do
  let url := str "http://169.254.169.254/latest/meta-data/" ++ path
  emit (.HTTPGet url)
  match s.httpGet url with
  | .error err => pure ([], some err)
  | .ok read =>
    match read with
    | .error err => do
      emit .BodyClose
      pure ([], some err)
    | .ok body => do
      emit .BodyClose
      pure (body, none)

/-- Go `ThisRegion`. -/
def ThisRegion (s : Startup) : Proc (GoString × Option GoError) := do
  let (result, err) ← Metadata s (str "placement/availability-zone")
  match err with
  | none => do
    let result ← sliceTo result ((result.length : Int) - 1)
    pure (result, err)
  | some _ => pure (result, err)

/-! ## The main action -/

/-- Value of `c.String("bastion")`: the flag is declared with `Value: "<unset>"`. -/
def Context.bastion (c : Context) : GoString :=
  match c.bastionFlag with
  | some b => b
  | none => str "<unset>"

/-- The function assigned to `app.Action` in Go `main`. -/
def mainAction {R : Type} (E : Externals R) (s : Startup) (w : World R) (c : Context) :
    Proc Unit := do
  let _auths ← addAgentAuth s 0
  let bastion := c.bastion
  -- TODO(pwaller): configurable SSH port
  emit (.SSHDial (bastion ++ str ":22"))
  match s.sshDialErr (bastion ++ str ":22") with
  | some err => halt (.Fatal [str "Failed to connect to bastion %q: %v", bastion, err])
  | none =>
    emit .SetTunnelTransport
    let (_region, err) ← ThisRegion s
    match err with
    | some _ => halt (.Fatal [str "Unable to determine bastion region"])
    | none => JumpTo E w c bastion

/-! ## Observations on traces -/

/-- The `syscall.Exec` calls of a trace: path and argument vector. -/
def execCalls : List Event → List (GoString × List GoString)
  | [] => []
  | .Exec path argv :: t => (path, argv) :: execCalls t
  | _ :: t => execCalls t

/-- What a trace does to the screen area of the table. -/
inductive ScreenOp
  | drew (lines : Nat)
  | up (n : Int)
deriving DecidableEq, Repr

/-- The screen operation of an effect, if it is one. -/
def screenOp : Event → Option ScreenOp
  | .TableRender lines => some (.drew lines.length)
  | .CursorUp n => some (.up n)
  | _ => none

/-- Screen operations of a watch, given for each cycle the number of lines its table takes on
the screen and the number of its instances: nothing before the first table, each table drawn
once, and between two tables the cursor going up by the instance count of the earlier one
plus four. -/
def watchDraws : List (Nat × Nat) → List ScreenOp
  | [] => []
  | [(lines, _)] => [.drew lines]
  | (lines, n) :: next :: rest => .drew lines :: .up (n + 4) :: watchDraws (next :: rest)

/-- The row `ShowInstances` builds for instance `i` at index `n` when the id has its two-byte
provider prefix. -/
def tableRow {R : Type} (E : Externals R) (n : Nat) (i : Instance) : List GoString :=
  [Sprint n, i.InstanceID.drop 2, i.Name, i.PrettyState, i.PrivateIP, E.fmtDuration i.Up,
   i.ICMPPing, i.SSHPing, i.HTTPPing, i.HTTPSPing]

/-- The rows of the table for a list of instances: row `n` is built from index `n` and the
`n`-th instance. -/
def tableRows {R : Type} (E : Externals R) (instances : List Instance) : List (List GoString) :=
  (instances.enumFrom 0).map (fun p => tableRow E p.1 p.2)

/-- The proxy option of the ssh command line: absent without a bastion. -/
def proxyOption (b : GoString) : List GoString :=
  if b = [] then [] else [str "-o", str "ProxyCommand=ssh " ++ b ++ str " ncat %h %p"]

/-- Every switch to direct dialing in the trace comes after a successful return of the
directory call, with no new cycle begun in between. -/
def Guarded (t : List Event) : Prop :=
  ∀ pre post, t = pre ++ Event.ConfigureHTTP false :: post →
    ∃ p1 p2, pre = p1 ++ Event.DescribeInstancesReturn true :: p2 ∧ Event.Now ∉ p2

/-- A failed return of the directory call in the trace of a watch is preceded by the start of
its cycle and the call and followed only by the fatal diagnostic. -/
def FailsFatally (t : List Event) : Prop :=
  ∀ pre post, t = pre ++ Event.DescribeInstancesReturn false :: post →
    (∃ err, post = [Event.Fatal [str "DescribeInstances error:", err]]) ∧
    ∃ q, pre = q ++ [Event.Now, Event.ConfigureHTTP true, Event.DescribeInstancesCall]

/-- The closure held in `goUp` returns and only moves the cursor. -/
def GoesUp (goUp : Unit → Proc Unit) : Prop :=
  ∃ ups, goUp () = ⟨ups, some ()⟩ ∧ ∀ e ∈ ups, ∃ n, e = Event.CursorUp n

/-! ## Concrete inputs -/

/-- A scanner for the examples: after leading blanks it reads an optional sign and a run of
decimal digits in base ten and ignores what follows. On a line that is just an optionally
signed decimal numeral without a leading zero, within the range of `int`, this is what
`fmt.Sscan(text, &n)` computes; on other lines (a leading `0`, which `fmt.Sscan` takes as a base
prefix, or an underscore between digits) it is not. The examples use the lines `1`, `2` and
`-1`; the general theorems hold for every scanner. -/
def SscanDecimal (text : GoString) : Except GoError Int :=
  let t := text.dropWhile (fun b => b = 32 ∨ b = 9 ∨ b = 10 ∨ b = 13)
  let neg := t.head? = some 45
  let t := if t.head? = some 45 ∨ t.head? = some 43 then t.drop 1 else t
  let ds := t.takeWhile (fun b => 48 ≤ b ∧ b ≤ 57)
  if ds = [] then .error (str "expected integer")
  else
    let v : Nat := ds.foldl (fun a d => 10 * a + (d.toNat - 48)) 0
    .ok (if neg then -(v : Int) else (v : Int))

/-- Externals for the examples: the directory response already is the list of records. -/
def demoExternals : Externals (List Instance) where
  InstancesFromEC2Result := fun r => r
  fmtDuration := fun d => Sprint d
  Sscan := SscanDecimal
  rowLines := fun _ => 1

/-- Externals for a table library that wraps: a row with a cell longer than 30 bytes takes two
lines. -/
def wrappingExternals : Externals (List Instance) where
  InstancesFromEC2Result := fun r => r
  fmtDuration := fun d => Sprint d
  Sscan := SscanDecimal
  rowLines := fun cells => if cells.any (fun cell => decide (30 < cell.length)) then 2 else 1

/-- An instance with a name of 41 bytes. -/
def longNameInstance : Instance where
  InstanceID := str "i-03"
  PrivateIP := str "10.0.0.11"
  Up := 60
  Name := str "a long descriptive name with blanks in it"
  PrettyState := str "R"
  ICMPPing := str "ok"
  SSHPing := str "ok"
  HTTPPing := str "-"
  HTTPSPing := str "-"

/-- An instance with a provider id and the given private address. -/
def demoInstance (id ip : String) : Instance where
  InstanceID := str id
  PrivateIP := str ip
  Up := 60
  Name := str id
  PrettyState := str "R"
  ICMPPing := str "ok"
  SSHPing := str "ok"
  HTTPPing := str "-"
  HTTPSPing := str "-"

/-- Two instances, as in the scenario of the specification. -/
def demoFleet : List Instance :=
  [demoInstance "i-01" "10.0.0.5", demoInstance "i-02" "10.0.0.9"]

/-- Standard input holding one line. -/
def stdinLine (text : String) : Stdin := ⟨true, none, str text⟩

/-- Standard input closed before any line. -/
def stdinClosed : Stdin := ⟨false, none, []⟩

/-- A world where the directory answers with `demoFleet` and `exec` succeeds. -/
def demoWorld (stdin : Stdin) : World (List Instance) := ⟨.ok demoFleet, stdin, none⟩

/-- An instance whose id is shorter than the two-byte provider prefix. -/
def shortIdInstance : Instance := demoInstance "i" "10.0.0.7"

/-- A world where the directory answers with `i-01` and an instance whose id is `i`. -/
def shortIdWorld : World (List Instance) :=
  ⟨.ok [demoInstance "i-01" "10.0.0.5", shortIdInstance], stdinClosed, none⟩

/-- A world where the directory call fails. -/
def failingWorld : World (List Instance) := ⟨.error (str "timeout"), stdinClosed, none⟩

/-- A context with `-n k` and the bastion `bastion.example`. -/
def flagContext (k : Int) : Context := ⟨true, k, [str "-v"], some (str "bastion.example")⟩

/-- A context without `-n`: the index is asked for. -/
def askContext : Context := ⟨false, 0, [str "-v"], some (str "bastion.example")⟩

/-- A context whose bastion flag is given as the empty string. -/
def emptyBastionContext : Context := ⟨true, 0, [], some []⟩

/-- A context where no bastion is supplied at all. -/
def noBastionContext : Context := ⟨true, 0, [], none⟩

/-- Three refresh cycles: two instances, then none, then a failing directory call. -/
def demoScript : List (Cycle (List Instance)) :=
  [⟨.ok demoFleet, false⟩, ⟨.ok [], false⟩, ⟨.error (str "timeout"), false⟩]

/-- A start-up where every dial succeeds and the metadata service answers `az`. -/
def demoStartup (az : String) : Startup where
  authSock := []
  agentDialErr := none
  sshDialErr := fun _ => none
  httpGet := fun _ => .ok (.ok (str az))

/-- A start-up where the metadata service cannot be reached. -/
def unreachableStartup : Startup where
  authSock := str "/tmp/agent.sock"
  agentDialErr := none
  sshDialErr := fun _ => none
  httpGet := fun _ => .error (str "no route to host")

/-- A start-up where the bastion dial is refused. -/
def refusedStartup : Startup where
  authSock := []
  agentDialErr := none
  sshDialErr := fun _ => some (str "connection refused")
  httpGet := fun _ => .ok (.ok (str "us-east-1a"))

/-! ## Sequencing lemmas -/

theorem bind_of_result {α β : Type} (m : Proc α) (f : α → Proc β) (a : α)
    (h : m.result = some a) :
    (m >>= f) = ⟨m.trace ++ (f a).trace, (f a).result⟩ := by
  show Proc.bind m f = _
  unfold Proc.bind
  rw [h]

theorem bind_of_halted {α β : Type} (m : Proc α) (f : α → Proc β) (h : m.result = none) :
    (m >>= f) = ⟨m.trace, none⟩ := by
  show Proc.bind m f = _
  unfold Proc.bind
  rw [h]

theorem bind_mk_some {α β : Type} (t : List Event) (a : α) (f : α → Proc β) :
    ((⟨t, some a⟩ : Proc α) >>= f) = ⟨t ++ (f a).trace, (f a).result⟩ :=
  bind_of_result _ f a rfl

theorem bind_mk_none {α β : Type} (t : List Event) (f : α → Proc β) :
    ((⟨t, none⟩ : Proc α) >>= f) = ⟨t, none⟩ :=
  bind_of_halted _ f rfl

theorem pure_eq {α : Type} (a : α) : (pure a : Proc α) = ⟨[], some a⟩ := rfl

/-! ## The table -/

theorem sliceFrom_of_le (s : GoString) (lo : Nat) (h : lo ≤ s.length) :
    sliceFrom s lo = ⟨[], some (s.drop lo)⟩ := by
  unfold sliceFrom
  rw [if_pos h]
  rfl

theorem sliceFrom_of_lt (s : GoString) (lo : Nat) (h : s.length < lo) :
    sliceFrom s lo = ⟨[.Panic (str "slice bounds out of range")], none⟩ := by
  unfold sliceFrom
  rw [if_neg (by omega)]
  rfl

theorem rows_of_prefixed {R : Type} (E : Externals R) (l : List Instance) :
    ∀ n : Nat, (∀ i ∈ l, 2 ≤ i.InstanceID.length) →
      ShowInstances.rows E n l
        = ⟨[], some ((l.enumFrom n).map (fun p => tableRow E p.1 p.2))⟩ := by
  induction l with
  | nil => intro n _; rfl
  | cons i rest ih =>
    intro n h
    have hi : 2 ≤ i.InstanceID.length := h i (List.mem_cons_self _ _)
    have hrest : ∀ j ∈ rest, 2 ≤ j.InstanceID.length :=
      fun j hj => h j (List.mem_cons_of_mem _ hj)
    unfold ShowInstances.rows
    rw [sliceFrom_of_le _ _ hi, bind_mk_some, ih (n + 1) hrest, bind_mk_some]
    rfl

theorem rows_cases {R : Type} (E : Externals R) (l : List Instance) :
    ∀ n : Nat, (∃ rs, ShowInstances.rows E n l = ⟨[], some rs⟩) ∨
      ShowInstances.rows E n l = ⟨[.Panic (str "slice bounds out of range")], none⟩ := by
  induction l with
  | nil => intro n; exact Or.inl ⟨[], rfl⟩
  | cons i rest ih =>
    intro n
    unfold ShowInstances.rows
    by_cases hi : 2 ≤ i.InstanceID.length
    · rw [sliceFrom_of_le _ _ hi, bind_mk_some]
      rcases ih (n + 1) with ⟨rs, hrs⟩ | hp
      · left
        rw [hrs, bind_mk_some]
        exact ⟨_, rfl⟩
      · right
        rw [hp, bind_mk_none]
        rfl
    · right
      rw [sliceFrom_of_lt _ _ (by omega), bind_mk_none]

theorem ShowInstances_cases {R : Type} (E : Externals R) (l : List Instance) :
    (∃ lines, ShowInstances E l = ⟨[.TableRender lines], some ()⟩) ∨
      ShowInstances E l = ⟨[.Panic (str "slice bounds out of range")], none⟩ := by
  unfold ShowInstances
  rcases rows_cases E l 0 with ⟨rs, hrs⟩ | hp
  · left
    rw [hrs, bind_mk_some]
    exact ⟨_, rfl⟩
  · right
    rw [hp, bind_mk_none]

theorem ShowInstances_of_prefixed {R : Type} (E : Externals R) (l : List Instance)
    (h : ∀ i ∈ l, 2 ≤ i.InstanceID.length) :
    ShowInstances E l
      = ⟨[.TableRender (Render E tableHeader (tableRows E l))], some ()⟩ := by
  unfold ShowInstances
  rw [rows_of_prefixed E l 0 h, bind_mk_some]
  rfl

/-! ## The ssh hand-off -/

theorem Sprintf_proxy (b : GoString) :
    Sprintf (str "ProxyCommand=ssh %v %v %%h %%p") [b, str "ncat"]
      = str "ProxyCommand=ssh " ++ b ++ str " ncat %h %p" := rfl

theorem InvokeSSH_eq (execErr : Option GoError) (a : List GoString) (b : GoString)
    (i : Instance) (n : Int) :
    InvokeSSH execErr a b i n
      = ⟨[.Fprintf ([10] ++ str "-- [ Connecting to %v (%v:%v) ] --" ++ [10, 10])
            [i.PrivateIP, i.Name, Sprint n],
          .LogPrintf (str "exec: %q") ([str "/usr/bin/ssh"] ++ proxyOption b ++ [i.PrivateIP] ++ a),
          .Exec (str "/usr/bin/ssh") ([str "/usr/bin/ssh"] ++ proxyOption b ++ [i.PrivateIP] ++ a)]
          ++ (match execErr with
              | some err => [.Fatal [str "Failed to exec:", err]]
              | none => []), none⟩ := by
  unfold InvokeSSH
  by_cases h : b = []
  · subst h
    cases execErr <;> simp [proxyOption, emit, halt, bind_mk_some, bind_mk_none]
  · cases execErr <;> simp [proxyOption, h, emit, halt, bind_mk_some, bind_mk_none, Sprintf_proxy]

theorem execCalls_append (s t : List Event) : execCalls (s ++ t) = execCalls s ++ execCalls t := by
  induction s with
  | nil => rfl
  | cons e s ih => cases e <;> simp [execCalls, ih]

theorem execCalls_InvokeSSH (execErr : Option GoError) (a : List GoString) (b : GoString)
    (i : Instance) (n : Int) :
    execCalls (InvokeSSH execErr a b i n).trace
      = [(str "/usr/bin/ssh", [str "/usr/bin/ssh"] ++ proxyOption b ++ [i.PrivateIP] ++ a)] := by
  rw [InvokeSSH_eq]
  cases execErr <;> simp [execCalls]

/-! ## Selection -/

theorem GetInstanceFromUser_of_no_line {R : Type} (E : Externals R) (stdin : Stdin) (max : Int)
    (h : stdin.scan = false) :
    GetInstanceFromUser E stdin max = ⟨[.ScanStdin, .Exit 1], none⟩ := by
  unfold GetInstanceFromUser
  simp [h, emit, halt, bind_mk_some]

theorem GetInstanceFromUser_accepts {R : Type} (E : Externals R) (stdin : Stdin) (max n : Int)
    (hscan : stdin.scan = true) (herr : stdin.err = none) (hn : E.Sscan stdin.text = .ok n)
    (hlt : n < max) :
    GetInstanceFromUser E stdin max = ⟨[.ScanStdin], some n⟩ := by
  unfold GetInstanceFromUser
  simp [hscan, herr, hn, emit, bind_mk_some, not_le.mpr hlt, pure_eq]

theorem GetInstanceFromUser_rejects {R : Type} (E : Externals R) (stdin : Stdin) (max n : Int)
    (hscan : stdin.scan = true) (herr : stdin.err = none) (hn : E.Sscan stdin.text = .ok n)
    (hge : max ≤ n) :
    GetInstanceFromUser E stdin max
      = ⟨[.ScanStdin, .Fatal [str "%d is not a valid instance", Sprint n]], none⟩ := by
  unfold GetInstanceFromUser
  simp [hscan, herr, hn, emit, halt, bind_mk_some, hge]

theorem GetInstanceFromUser_no_exec {R : Type} (E : Externals R) (stdin : Stdin) (max : Int) :
    execCalls (GetInstanceFromUser E stdin max).trace = [] := by
  unfold GetInstanceFromUser
  cases hs : stdin.scan <;> cases he : stdin.err <;> cases hn : E.Sscan stdin.text <;>
    simp [emit, halt, bind_mk_some, execCalls, pure_eq]
  split <;> simp [execCalls]

theorem index_of_get {α : Type} (xs : List α) (n : Int) (x : α) (h0 : 0 ≤ n)
    (hx : xs.get? n.toNat = some x) : index xs n = ⟨[], some x⟩ := by
  unfold index
  rw [if_pos h0, hx]
  rfl

theorem index_out_of_range {α : Type} (xs : List α) (n : Int) (h : n < 0 ∨ (xs.length : Int) ≤ n) :
    index xs n = ⟨[.Panic (str "index out of range")], none⟩ := by
  unfold index
  by_cases h0 : 0 ≤ n
  · have hlen : xs.length ≤ n.toNat := by omega
    rw [if_pos h0, List.get?_eq_none.mpr hlen]
    rfl
  · rw [if_neg h0]
    rfl

/-! ## JumpTo -/

theorem JumpTo_of_error {R : Type} (E : Externals R) (w : World R) (c : Context)
    (bastion : GoString) (err : GoError) (h : w.describe = .error err) :
    JumpTo E w c bastion
      = ⟨[.DescribeInstancesCall, .DescribeInstancesReturn false,
          .Fatal [str "DescribeInstances error:", err]], none⟩ := by
  unfold JumpTo
  rw [h]
  simp [emit, halt, bind_mk_some, bind_mk_none]

theorem JumpTo_of_ok {R : Type} (E : Externals R) (w : World R) (c : Context)
    (bastion : GoString) (r : R) (h : w.describe = .ok r) :
    JumpTo E w c bastion
      = (⟨[.DescribeInstancesCall, .DescribeInstancesReturn true, .ConfigureHTTP false,
           .InstancesFromEC2Result], some ()⟩ : Proc Unit) >>= fun _ =>
        ShowInstances E (E.InstancesFromEC2Result r) >>= fun _ =>
        if !c.nSet then
          GetInstanceFromUser E w.stdin (E.InstancesFromEC2Result r).length >>= fun n =>
          (⟨[.CursorUp ((E.InstancesFromEC2Result r).length + N_TABLE_DECORATIONS + 1),
             .ClearToEndOfScreen], some ()⟩ : Proc Unit) >>= fun _ =>
          index (E.InstancesFromEC2Result r) n >>= fun inst =>
          InvokeSSH w.execErr c.Args bastion inst n
        else
          (⟨[.CursorUp ((E.InstancesFromEC2Result r).length + N_TABLE_DECORATIONS + 1),
             .ClearToEndOfScreen], some ()⟩ : Proc Unit) >>= fun _ =>
          index (E.InstancesFromEC2Result r) c.n >>= fun inst =>
          InvokeSSH w.execErr c.Args bastion inst c.n := by
  unfold JumpTo
  rw [h]
  simp only [emit, CursorUp, ClearToEndOfScreen, bind_mk_some, List.append_assoc,
    List.singleton_append, List.nil_append, List.cons_append, pure_eq]

/-! ## Traces of sequenced runs -/

theorem trace_bind {α β : Type} (m : Proc α) (f : α → Proc β) :
    (m >>= f).trace
      = m.trace ++ (match m.result with
                    | some a => (f a).trace
                    | none => []) := by
  cases hm : m.result with
  | none => rw [bind_of_halted m f hm]; simp
  | some a => rw [bind_of_result m f a hm]

theorem split_cases {α : Type} (l1 l2 pre post : List α) (x : α)
    (h : l1 ++ l2 = pre ++ x :: post) :
    (∃ m, l1 = pre ++ x :: m ∧ post = m ++ l2) ∨ (∃ m, pre = l1 ++ m ∧ l2 = m ++ x :: post) := by
  rcases List.append_eq_append_iff.mp h with ⟨a, ha, hb⟩ | ⟨c, hc, hd⟩
  · exact Or.inr ⟨a, ha, hb⟩
  · cases c with
    | nil =>
      right
      refine ⟨[], ?_, ?_⟩
      · simpa using hc.symm
      · simpa using hd.symm
    | cons y c =>
      left
      simp only [List.cons_append, List.cons.injEq] at hd
      obtain ⟨hxy, hpost⟩ := hd
      subst hxy
      exact ⟨c, hc, hpost⟩

theorem split_unique {α : Type} (l1 l2 pre post : List α) (x : α)
    (h1 : x ∉ l1) (h2 : x ∉ l2) (h : l1 ++ x :: l2 = pre ++ x :: post) :
    pre = l1 ∧ post = l2 := by
  rcases split_cases l1 (x :: l2) pre post x h with ⟨m, hm, _⟩ | ⟨m, hm, hl⟩
  · exact absurd (by rw [hm]; simp) h1
  · cases m with
    | nil =>
      simp only [List.nil_append, List.cons.injEq, true_and] at hl
      exact ⟨by simpa using hm, hl.symm⟩
    | cons y m =>
      simp only [List.cons_append, List.cons.injEq] at hl
      exact absurd (by rw [hl.2]; simp) h2

/-! ## The ordering of the transport switch -/

theorem Guarded_of_not_mem (t : List Event) (h : Event.ConfigureHTTP false ∉ t) : Guarded t := by
  intro pre post ht
  exact absurd (by rw [ht]; simp) h

theorem Guarded_append (s t : List Event) (hs : Guarded s) (ht : Guarded t) :
    Guarded (s ++ t) := by
  intro pre post h
  rcases split_cases s t pre post _ h with ⟨m, hm, _⟩ | ⟨m, hm, hl⟩
  · exact hs pre m hm
  · obtain ⟨p1, p2, hp, hnow⟩ := ht m post hl
    refine ⟨s ++ p1, p2, ?_, hnow⟩
    rw [hm, hp, List.append_assoc]

theorem Guarded_bind {α β : Type} (m : Proc α) (f : α → Proc β) (hm : Guarded m.trace)
    (hf : ∀ a, Guarded (f a).trace) : Guarded (m >>= f).trace := by
  rw [trace_bind]
  apply Guarded_append _ _ hm
  cases m.result with
  | none => exact Guarded_of_not_mem _ (by simp)
  | some a => exact hf a

theorem Guarded_head (t : List Event) (ht : Guarded t) :
    Guarded ([Event.Now, Event.ConfigureHTTP true, Event.DescribeInstancesCall,
      Event.DescribeInstancesReturn true, Event.ConfigureHTTP false,
      Event.InstancesFromEC2Result] ++ t) := by
  apply Guarded_append _ _ _ ht
  intro pre post h
  have hu := split_unique [Event.Now, Event.ConfigureHTTP true, Event.DescribeInstancesCall,
    Event.DescribeInstancesReturn true] [Event.InstancesFromEC2Result] pre post
    (Event.ConfigureHTTP false) (by simp) (by simp) (by simpa using h)
  exact ⟨[Event.Now, Event.ConfigureHTTP true, Event.DescribeInstancesCall], [], by simp [hu.1],
    by simp⟩

theorem ShowInstances_trace_mem {R : Type} (E : Externals R) (l : List Instance) (e : Event)
    (he : e ∈ (ShowInstances E l).trace) :
    (∃ lines, e = Event.TableRender lines) ∨ ∃ msg, e = Event.Panic msg := by
  rcases ShowInstances_cases E l with ⟨lines, h⟩ | h
  · rw [h] at he
    exact Or.inl ⟨lines, by simpa using he⟩
  · rw [h] at he
    exact Or.inr ⟨_, by simpa using he⟩

/-! ## The refresh loop -/

theorem Watch_loop_error {R : Type} (E : Externals R) (goUp : Unit → Proc Unit) (cy : Cycle R)
    (later : List (Cycle R)) (err : GoError) (h : cy.describe = .error err) :
    Watch.loop E goUp (cy :: later)
      = ⟨[.Now, .ConfigureHTTP true, .DescribeInstancesCall, .DescribeInstancesReturn false,
          .Fatal [str "DescribeInstances error:", err]], none⟩ := by
  rw [Watch.loop, h]
  simp [emit, halt, bind_mk_some, bind_mk_none]

theorem Watch_loop_ok {R : Type} (E : Externals R) (goUp : Unit → Proc Unit) (cy : Cycle R)
    (later : List (Cycle R)) (r : R) (h : cy.describe = .ok r) :
    Watch.loop E goUp (cy :: later)
      = (⟨[.Now, .ConfigureHTTP true, .DescribeInstancesCall, .DescribeInstancesReturn true,
           .ConfigureHTTP false, .InstancesFromEC2Result], some ()⟩ : Proc Unit) >>= fun _ =>
        goUp () >>= fun _ =>
        ShowInstances E (E.InstancesFromEC2Result r) >>= fun _ =>
        (⟨[.Since, .Select cy.finish], some ()⟩ : Proc Unit) >>= fun _ =>
        if cy.finish then pure ()
        else Watch.loop E
          (fun _ => CursorUp ((E.InstancesFromEC2Result r).length + N_TABLE_DECORATIONS)) later := by
  rw [Watch.loop, h]
  simp only [emit, bind_mk_some, List.append_assoc, List.singleton_append, List.nil_append,
    List.cons_append]

theorem GoesUp_noop : GoesUp (fun _ => pure ()) := ⟨[], rfl, by simp⟩

theorem GoesUp_CursorUp (n : Int) : GoesUp (fun _ => CursorUp n) :=
  ⟨[.CursorUp n], rfl, by simp⟩

theorem Guarded_loop {R : Type} (E : Externals R) (script : List (Cycle R)) :
    ∀ goUp : Unit → Proc Unit, GoesUp goUp → Guarded (Watch.loop E goUp script).trace := by
  induction script with
  | nil =>
    intro goUp _
    rw [Watch.loop]
    exact Guarded_of_not_mem _ (by simp)
  | cons cy later ih =>
    intro goUp hup
    obtain ⟨ups, hups, hmem⟩ := hup
    cases hd : cy.describe with
    | error err =>
      rw [Watch_loop_error E goUp cy later err hd]
      exact Guarded_of_not_mem _ (by simp)
    | ok r =>
      rw [Watch_loop_ok E goUp cy later r hd, bind_mk_some]
      apply Guarded_head
      apply Guarded_bind
      · rw [hups]
        apply Guarded_of_not_mem
        intro hin
        obtain ⟨n, hn⟩ := hmem _ hin
        cases hn
      · intro _
        apply Guarded_bind
        · apply Guarded_of_not_mem
          intro hin
          rcases ShowInstances_trace_mem E _ _ hin with ⟨_, hl⟩ | ⟨_, hl⟩ <;> cases hl
        · intro _
          rw [bind_mk_some]
          apply Guarded_append
          · exact Guarded_of_not_mem _ (by simp)
          · cases cy.finish with
            | true => exact Guarded_of_not_mem _ (by simp [pure_eq])
            | false => exact ih _ (GoesUp_CursorUp _)

theorem FailsFatally_of_not_mem (t : List Event)
    (h : Event.DescribeInstancesReturn false ∉ t) : FailsFatally t := by
  intro pre post ht
  exact absurd (by rw [ht]; simp) h

theorem FailsFatally_append (s t : List Event) (hs : Event.DescribeInstancesReturn false ∉ s)
    (ht : FailsFatally t) : FailsFatally (s ++ t) := by
  intro pre post h
  rcases split_cases s t pre post _ h with ⟨m, hm, _⟩ | ⟨m, hm, hl⟩
  · exact absurd (by rw [hm]; simp) hs
  · obtain ⟨hpost, q, hq⟩ := ht m post hl
    refine ⟨hpost, s ++ q, ?_⟩
    rw [hm, hq, List.append_assoc]

theorem FailsFatally_bind {α β : Type} (m : Proc α) (f : α → Proc β)
    (hm : Event.DescribeInstancesReturn false ∉ m.trace)
    (hf : ∀ a, FailsFatally (f a).trace) : FailsFatally (m >>= f).trace := by
  rw [trace_bind]
  apply FailsFatally_append _ _ hm
  cases m.result with
  | none => exact FailsFatally_of_not_mem _ (by simp)
  | some a => exact hf a

theorem FailsFatally_loop {R : Type} (E : Externals R) (script : List (Cycle R)) :
    ∀ goUp : Unit → Proc Unit, GoesUp goUp → FailsFatally (Watch.loop E goUp script).trace := by
  induction script with
  | nil =>
    intro goUp _
    rw [Watch.loop]
    exact FailsFatally_of_not_mem _ (by simp)
  | cons cy later ih =>
    intro goUp hup
    obtain ⟨ups, hups, hmem⟩ := hup
    cases hd : cy.describe with
    | error err =>
      rw [Watch_loop_error E goUp cy later err hd]
      intro pre post h
      have hu := split_unique [Event.Now, Event.ConfigureHTTP true, Event.DescribeInstancesCall]
        [Event.Fatal [str "DescribeInstances error:", err]] pre post
        (Event.DescribeInstancesReturn false) (by simp) (by simp) (by simpa using h)
      exact ⟨⟨err, hu.2⟩, [], by simp [hu.1]⟩
    | ok r =>
      rw [Watch_loop_ok E goUp cy later r hd]
      apply FailsFatally_bind _ _ (by simp)
      intro _
      apply FailsFatally_bind
      · rw [hups]
        intro hin
        obtain ⟨n, hn⟩ := hmem _ hin
        cases hn
      · intro _
        apply FailsFatally_bind
        · intro hin
          rcases ShowInstances_trace_mem E _ _ hin with ⟨_, hl⟩ | ⟨_, hl⟩ <;> cases hl
        · intro _
          apply FailsFatally_bind _ _ (by simp)
          intro _
          cases cy.finish with
          | true => exact FailsFatally_of_not_mem _ (by simp [pure_eq])
          | false => exact ih _ (GoesUp_CursorUp _)

theorem JumpTo_ok_head {R : Type} (E : Externals R) (w : World R) (c : Context)
    (bastion : GoString) (r : R) (h : w.describe = .ok r) :
    ∃ rest, (JumpTo E w c bastion).trace
      = Event.DescribeInstancesCall :: Event.DescribeInstancesReturn true :: rest := by
  rw [JumpTo_of_ok E w c bastion r h, bind_mk_some]
  exact ⟨_, rfl⟩

/-! ## Claims -/

/-- C1: in a run of `JumpTo` every `ConfigureHTTP(false)` comes after the successful return of
`DescribeInstances`, and after a failed return there is none; in `Watch` every
`ConfigureHTTP(false)` comes after a successful return of `DescribeInstances` in the same
cycle (no `time.Now()` of a later cycle in between), and a cycle whose directory call fails
consists of the cycle start, `ConfigureHTTP(true)` and the call, with no switch after it. -/
theorem transport_switch_follows_directory_call {R : Type} (E : Externals R) :
    (∀ (w : World R) (c : Context) (bastion : GoString) (pre post : List Event),
        (JumpTo E w c bastion).trace = pre ++ Event.ConfigureHTTP false :: post →
        Event.DescribeInstancesReturn true ∈ pre)
    ∧ (∀ (w : World R) (c : Context) (bastion : GoString) (err : GoError),
        w.describe = .error err →
        Event.ConfigureHTTP false ∉ (JumpTo E w c bastion).trace)
    ∧ (∀ (script : List (Cycle R)) (pre post : List Event),
        (Watch E script).trace = pre ++ Event.ConfigureHTTP false :: post →
        ∃ p1 p2, pre = p1 ++ Event.DescribeInstancesReturn true :: p2 ∧ Event.Now ∉ p2)
    ∧ (∀ (script : List (Cycle R)) (pre post : List Event),
        (Watch E script).trace = pre ++ Event.DescribeInstancesReturn false :: post →
        Event.ConfigureHTTP false ∉ post ∧
        ∃ q, pre = q ++ [Event.Now, Event.ConfigureHTTP true, Event.DescribeInstancesCall]) := by
  refine ⟨?_, ?_, ?_, ?_⟩
  · intro w c bastion pre post h
    cases hd : w.describe with
    | error err =>
      rw [JumpTo_of_error E w c bastion err hd] at h
      have hmem : Event.ConfigureHTTP false ∈ pre ++ Event.ConfigureHTTP false :: post := by simp
      rw [← h] at hmem
      simp at hmem
    | ok r =>
      obtain ⟨rest, hrest⟩ := JumpTo_ok_head E w c bastion r hd
      rw [hrest] at h
      rcases pre with _ | ⟨a, _ | ⟨b, pre⟩⟩
      · simp at h
      · simp at h
      · simp only [List.cons_append, List.cons.injEq] at h
        rw [← h.2.1]
        simp
  · intro w c bastion err hd
    rw [JumpTo_of_error E w c bastion err hd]
    simp
  · intro script pre post h
    exact Guarded_loop E script _ GoesUp_noop pre post h
  · intro script pre post h
    obtain ⟨⟨err, hpost⟩, hq⟩ := FailsFatally_loop E script _ GoesUp_noop pre post h
    refine ⟨?_, hq⟩
    rw [hpost]
    simp

/-- Instance of C1 on a run with `-n 1`, a run whose directory call fails, and a watch of
three cycles. -/
theorem transport_switch_follows_directory_call_witness :
    Event.DescribeInstancesReturn true
        ∈ [Event.DescribeInstancesCall, Event.DescribeInstancesReturn true]
    ∧ Event.ConfigureHTTP false
        ∉ (JumpTo demoExternals failingWorld (flagContext 1) (str "bastion.example")).trace
    ∧ (∃ p1 p2, (Watch demoExternals demoScript).trace.take 13
          = p1 ++ Event.DescribeInstancesReturn true :: p2 ∧ Event.Now ∉ p2)
    ∧ (Event.ConfigureHTTP false ∉ (Watch demoExternals demoScript).trace.drop 23 ∧
        ∃ q, (Watch demoExternals demoScript).trace.take 22
          = q ++ [Event.Now, Event.ConfigureHTTP true, Event.DescribeInstancesCall]) :=
  ⟨(transport_switch_follows_directory_call demoExternals).1
      (demoWorld (stdinLine "1")) (flagContext 1) (str "bastion.example")
      [Event.DescribeInstancesCall, Event.DescribeInstancesReturn true]
      ((JumpTo demoExternals (demoWorld (stdinLine "1")) (flagContext 1)
        (str "bastion.example")).trace.drop 3) (by decide),
   (transport_switch_follows_directory_call demoExternals).2.1
      failingWorld (flagContext 1) (str "bastion.example") (str "timeout") rfl,
   (transport_switch_follows_directory_call demoExternals).2.2.1 demoScript
      ((Watch demoExternals demoScript).trace.take 13)
      ((Watch demoExternals demoScript).trace.drop 14) (by decide),
   (transport_switch_follows_directory_call demoExternals).2.2.2 demoScript
      ((Watch demoExternals demoScript).trace.take 22)
      ((Watch demoExternals demoScript).trace.drop 23) (by decide)⟩

/-- C7: when `DescribeInstances` returns an error, `JumpTo` performs the call, the failed
return and the fatal diagnostic and nothing else; in `Watch` a failed return is preceded in
its cycle only by the cycle start, `ConfigureHTTP(true)` and the call, and followed only by
the fatal diagnostic: no instance records are built, no table is rendered, no input is read
and nothing is executed in that run or cycle. -/
theorem directory_failure_is_fatal {R : Type} (E : Externals R) :
    (∀ (w : World R) (c : Context) (bastion : GoString) (err : GoError),
        w.describe = .error err →
        JumpTo E w c bastion
          = ⟨[Event.DescribeInstancesCall, Event.DescribeInstancesReturn false,
              Event.Fatal [str "DescribeInstances error:", err]], none⟩)
    ∧ (∀ (script : List (Cycle R)) (pre post : List Event),
        (Watch E script).trace = pre ++ Event.DescribeInstancesReturn false :: post →
        (∃ err, post = [Event.Fatal [str "DescribeInstances error:", err]]) ∧
        ∃ q, pre = q ++ [Event.Now, Event.ConfigureHTTP true, Event.DescribeInstancesCall]) :=
  ⟨fun w c bastion err h => JumpTo_of_error E w c bastion err h,
   fun script pre post h => FailsFatally_loop E script _ GoesUp_noop pre post h⟩

/-- Instance of C7 on a run whose directory call fails and on the third cycle of a watch. -/
theorem directory_failure_is_fatal_witness :
    JumpTo demoExternals failingWorld askContext (str "bastion.example")
        = ⟨[Event.DescribeInstancesCall, Event.DescribeInstancesReturn false,
            Event.Fatal [str "DescribeInstances error:", str "timeout"]], none⟩
    ∧ ((∃ err, (Watch demoExternals demoScript).trace.drop 23
          = [Event.Fatal [str "DescribeInstances error:", err]]) ∧
        ∃ q, (Watch demoExternals demoScript).trace.take 22
          = q ++ [Event.Now, Event.ConfigureHTTP true, Event.DescribeInstancesCall]) :=
  ⟨(directory_failure_is_fatal demoExternals).1 failingWorld askContext
      (str "bastion.example") (str "timeout") rfl,
   (directory_failure_is_fatal demoExternals).2 demoScript
      ((Watch demoExternals demoScript).trace.take 22)
      ((Watch demoExternals demoScript).trace.drop 23) (by decide)⟩

/-- C4: the argument vector `InvokeSSH` passes to `syscall.Exec` is `/usr/bin/ssh`, then the
proxy option (nothing when the bastion is empty, otherwise `-o` and
`ProxyCommand=ssh <bastion> ncat %h %p`), then the private address, then the passthrough
arguments in order; and this is the only `exec` of the call. -/
theorem InvokeSSH_argument_vector (execErr : Option GoError) (a : List GoString)
    (b : GoString) (i : Instance) (n : Int) :
    execCalls (InvokeSSH execErr a b i n).trace
      = [(str "/usr/bin/ssh",
          [str "/usr/bin/ssh"]
            ++ (if b = [] then []
                else [str "-o", str "ProxyCommand=ssh " ++ b ++ str " ncat %h %p"])
            ++ [i.PrivateIP] ++ a)] :=
  execCalls_InvokeSSH execErr a b i n

/-- C2 as stated fails: with the instances `i-01` and one whose id is `i`, and `-n 0`, `JumpTo`
faults in `ShowInstances` at `InstanceID[2:]` before the selection: `instances[0]` is not
handed to `InvokeSSH` and nothing is executed. -/
theorem JumpTo_short_id_never_invokes :
    JumpTo demoExternals shortIdWorld (flagContext 0) (str "bastion.example")
      = ⟨[Event.DescribeInstancesCall, Event.DescribeInstancesReturn true,
          Event.ConfigureHTTP false, Event.InstancesFromEC2Result,
          Event.Panic (str "slice bounds out of range")], none⟩
    ∧ execCalls
        (JumpTo demoExternals shortIdWorld (flagContext 0) (str "bastion.example")).trace
      = [] := by
  decide

/-- C2, amended: for every instance list of length `N` returned by the directory whose ids all
have at least two bytes, and every index `k` with `0 ≤ k < N` selected by `-n k` or by an
input line that scans to `k`, `JumpTo` ends with the run of `InvokeSSH` on `instances[k]`, and
the one `exec` of the run has the private address of `instances[k]` as its target, after
`/usr/bin/ssh` and the proxy option and before the passthrough arguments. -/
theorem JumpTo_routes_to_selected {R : Type} (E : Externals R) (w : World R) (c : Context)
    (bastion : GoString) (r : R) (k : Int)
    (hdesc : w.describe = .ok r)
    (hids : ∀ i ∈ E.InstancesFromEC2Result r, 2 ≤ i.InstanceID.length)
    (hk0 : 0 ≤ k) (hkN : k < (E.InstancesFromEC2Result r).length)
    (hsel : (c.nSet = true ∧ c.n = k) ∨
      (c.nSet = false ∧ w.stdin.scan = true ∧ w.stdin.err = none ∧
        E.Sscan w.stdin.text = .ok k)) :
    ∃ inst pre,
      (E.InstancesFromEC2Result r).get? k.toNat = some inst ∧
      (JumpTo E w c bastion).trace
        = pre ++ (InvokeSSH w.execErr c.Args bastion inst k).trace ∧
      execCalls pre = [] ∧
      execCalls (JumpTo E w c bastion).trace
        = [(str "/usr/bin/ssh",
            [str "/usr/bin/ssh"]
              ++ (if bastion = [] then []
                  else [str "-o", str "ProxyCommand=ssh " ++ bastion ++ str " ncat %h %p"])
              ++ [inst.PrivateIP] ++ c.Args)] := by
  have hlt : k.toNat < (E.InstancesFromEC2Result r).length := by omega
  obtain ⟨inst, hinst⟩ : ∃ inst, (E.InstancesFromEC2Result r).get? k.toNat = some inst :=
    ⟨_, List.get?_eq_get hlt⟩
  obtain ⟨lines, hlines⟩ : ∃ lines, ShowInstances E (E.InstancesFromEC2Result r)
      = ⟨[.TableRender lines], some ()⟩ :=
    ⟨_, ShowInstances_of_prefixed E _ hids⟩
  have hidx := index_of_get (E.InstancesFromEC2Result r) k inst hk0 hinst
  have hexec := execCalls_InvokeSSH w.execErr c.Args bastion inst k
  have hfinish : ∀ pre : List Event,
      (JumpTo E w c bastion).trace
        = pre ++ (InvokeSSH w.execErr c.Args bastion inst k).trace →
      execCalls pre = [] →
      execCalls (JumpTo E w c bastion).trace
        = [(str "/usr/bin/ssh",
            [str "/usr/bin/ssh"]
              ++ (if bastion = [] then []
                  else [str "-o", str "ProxyCommand=ssh " ++ bastion ++ str " ncat %h %p"])
              ++ [inst.PrivateIP] ++ c.Args)] := by
    intro pre htrace hpre
    rw [htrace, execCalls_append, hpre, hexec]
    rfl
  rcases hsel with ⟨hset, hn⟩ | ⟨hset, hscan, herr, hscanned⟩
  · have htrace : (JumpTo E w c bastion).trace
        = [.DescribeInstancesCall, .DescribeInstancesReturn true, .ConfigureHTTP false,
            .InstancesFromEC2Result, .TableRender lines,
            .CursorUp ((E.InstancesFromEC2Result r).length + N_TABLE_DECORATIONS + 1),
            .ClearToEndOfScreen] ++ (InvokeSSH w.execErr c.Args bastion inst k).trace := by
      rw [JumpTo_of_ok E w c bastion r hdesc, hlines]
      simp [hset, hn, hidx, bind_mk_some]
    exact ⟨inst, _, hinst, htrace, rfl, hfinish _ htrace rfl⟩
  · have hget := GetInstanceFromUser_accepts E w.stdin (E.InstancesFromEC2Result r).length k
      hscan herr hscanned hkN
    have htrace : (JumpTo E w c bastion).trace
        = [.DescribeInstancesCall, .DescribeInstancesReturn true, .ConfigureHTTP false,
            .InstancesFromEC2Result, .TableRender lines, .ScanStdin,
            .CursorUp ((E.InstancesFromEC2Result r).length + N_TABLE_DECORATIONS + 1),
            .ClearToEndOfScreen] ++ (InvokeSSH w.execErr c.Args bastion inst k).trace := by
      rw [JumpTo_of_ok E w c bastion r hdesc, hlines]
      simp [hset, hget, hidx, bind_mk_some]
    exact ⟨inst, _, hinst, htrace, rfl, hfinish _ htrace rfl⟩

/-- Instance of C2 (amended): the operator types `1` at the table of two instances; and
`-n 0`. -/
theorem JumpTo_routes_to_selected_witness :
    (∃ inst pre,
      (demoExternals.InstancesFromEC2Result demoFleet).get? (1 : Int).toNat = some inst ∧
      (JumpTo demoExternals (demoWorld (stdinLine "1")) askContext (str "bastion.example")).trace
        = pre ++ (InvokeSSH (demoWorld (stdinLine "1")).execErr askContext.Args
            (str "bastion.example") inst 1).trace ∧
      execCalls pre = [] ∧
      execCalls
          (JumpTo demoExternals (demoWorld (stdinLine "1")) askContext
            (str "bastion.example")).trace
        = [(str "/usr/bin/ssh",
            [str "/usr/bin/ssh"]
              ++ (if str "bastion.example" = [] then []
                  else [str "-o",
                    str "ProxyCommand=ssh " ++ str "bastion.example" ++ str " ncat %h %p"])
              ++ [inst.PrivateIP] ++ askContext.Args)])
    ∧ (∃ inst pre,
      (demoExternals.InstancesFromEC2Result demoFleet).get? (0 : Int).toNat = some inst ∧
      (JumpTo demoExternals (demoWorld stdinClosed) (flagContext 0) []).trace
        = pre ++ (InvokeSSH (demoWorld stdinClosed).execErr (flagContext 0).Args
            [] inst 0).trace ∧
      execCalls pre = [] ∧
      execCalls (JumpTo demoExternals (demoWorld stdinClosed) (flagContext 0) []).trace
        = [(str "/usr/bin/ssh",
            [str "/usr/bin/ssh"]
              ++ (if ([] : GoString) = [] then []
                  else [str "-o", str "ProxyCommand=ssh " ++ [] ++ str " ncat %h %p"])
              ++ [inst.PrivateIP] ++ (flagContext 0).Args)]) :=
  ⟨JumpTo_routes_to_selected demoExternals (demoWorld (stdinLine "1")) askContext
      (str "bastion.example") demoFleet 1 rfl (by decide) (by decide) (by decide)
      (Or.inr ⟨rfl, rfl, rfl, rfl⟩),
   JumpTo_routes_to_selected demoExternals (demoWorld stdinClosed) (flagContext 0)
      [] demoFleet 0 rfl (by decide) (by decide) (by decide)
      (Or.inl ⟨rfl, rfl⟩)⟩

/-- C3: with two instances, the input line `2` is refused by `GetInstanceFromUser` with the
diagnostic and a fatal exit, but `-n 2` is not checked: `JumpTo` moves the cursor, clears the
screen and faults at `instances[n]` with an index out of range, with no diagnostic of its own.
Neither run executes ssh. -/
theorem JumpTo_flag_index_unchecked :
    (JumpTo demoExternals (demoWorld (stdinLine "2")) askContext
        (str "bastion.example")).trace.drop 5
      = [Event.ScanStdin, Event.Fatal [str "%d is not a valid instance", str "2"]]
    ∧ (JumpTo demoExternals (demoWorld stdinClosed) (flagContext 2)
        (str "bastion.example")).trace.drop 5
      = [Event.CursorUp 7, Event.ClearToEndOfScreen, Event.Panic (str "index out of range")]
    ∧ execCalls (JumpTo demoExternals (demoWorld (stdinLine "2")) askContext
        (str "bastion.example")).trace = []
    ∧ execCalls (JumpTo demoExternals (demoWorld stdinClosed) (flagContext 2)
        (str "bastion.example")).trace = [] := by
  decide

/-- C10: with two instances, the input line `-1` passes the check `n >= max`:
`GetInstanceFromUser(2)` returns `-1`, and `JumpTo` then faults at `instances[n]`. -/
theorem GetInstanceFromUser_returns_negative :
    GetInstanceFromUser demoExternals (stdinLine "-1") 2 = ⟨[Event.ScanStdin], some (-1)⟩
    ∧ (JumpTo demoExternals (demoWorld (stdinLine "-1")) askContext
        (str "bastion.example")).trace.drop 5
      = [Event.ScanStdin, Event.CursorUp 7, Event.ClearToEndOfScreen,
         Event.Panic (str "index out of range")] := by
  decide

/-- C5 as stated fails: on closed input `GetInstanceFromUser` exits with status 1, not 0. -/
theorem GetInstanceFromUser_closed_input_not_zero :
    (GetInstanceFromUser demoExternals stdinClosed 2).trace = [Event.ScanStdin, Event.Exit 1]
    ∧ Event.Exit 0 ∉ (GetInstanceFromUser demoExternals stdinClosed 2).trace := by
  decide

/-- C5, amended: when `s.Scan()` reports no line, `GetInstanceFromUser` does nothing but
`os.Exit(1)`: no diagnostic, exit status 1, no return; and a run of `JumpTo` that asks for the
index then ends with that exit right after the table, without executing ssh. -/
theorem GetInstanceFromUser_closed_input_exits_one {R : Type} (E : Externals R) :
    (∀ (stdin : Stdin) (max : Int), stdin.scan = false →
        GetInstanceFromUser E stdin max = ⟨[Event.ScanStdin, Event.Exit 1], none⟩)
    ∧ (∀ (w : World R) (c : Context) (bastion : GoString) (r : R),
        w.describe = .ok r →
        (ShowInstances E (E.InstancesFromEC2Result r)).result = some () →
        c.nSet = false → w.stdin.scan = false →
        (∃ lines, JumpTo E w c bastion
          = ⟨[Event.DescribeInstancesCall, Event.DescribeInstancesReturn true,
              Event.ConfigureHTTP false, Event.InstancesFromEC2Result,
              Event.TableRender lines, Event.ScanStdin, Event.Exit 1], none⟩)
        ∧ execCalls (JumpTo E w c bastion).trace = []) := by
  refine ⟨fun stdin max h => GetInstanceFromUser_of_no_line E stdin max h, ?_⟩
  intro w c bastion r hdesc hshown hset hscan
  obtain ⟨lines, hlines⟩ : ∃ lines, ShowInstances E (E.InstancesFromEC2Result r)
      = ⟨[.TableRender lines], some ()⟩ := by
    rcases ShowInstances_cases E (E.InstancesFromEC2Result r) with h | h
    · exact h
    · rw [h] at hshown
      cases hshown
  have hrun : JumpTo E w c bastion
      = ⟨[Event.DescribeInstancesCall, Event.DescribeInstancesReturn true,
          Event.ConfigureHTTP false, Event.InstancesFromEC2Result,
          Event.TableRender lines, Event.ScanStdin, Event.Exit 1], none⟩ := by
    rw [JumpTo_of_ok E w c bastion r hdesc, hlines,
      GetInstanceFromUser_of_no_line E w.stdin _ hscan]
    simp [hset, bind_mk_some, bind_mk_none]
  refine ⟨⟨lines, hrun⟩, ?_⟩
  rw [hrun]
  rfl

/-- Instance of C5 (amended) on the closed input and the table of two instances. -/
theorem GetInstanceFromUser_closed_input_exits_one_witness :
    GetInstanceFromUser demoExternals stdinClosed 2 = ⟨[Event.ScanStdin, Event.Exit 1], none⟩
    ∧ ((∃ lines, JumpTo demoExternals (demoWorld stdinClosed) askContext (str "bastion.example")
          = ⟨[Event.DescribeInstancesCall, Event.DescribeInstancesReturn true,
              Event.ConfigureHTTP false, Event.InstancesFromEC2Result,
              Event.TableRender lines, Event.ScanStdin, Event.Exit 1], none⟩)
        ∧ execCalls (JumpTo demoExternals (demoWorld stdinClosed) askContext
            (str "bastion.example")).trace = []) :=
  ⟨(GetInstanceFromUser_closed_input_exits_one demoExternals).1 stdinClosed 2 rfl,
   (GetInstanceFromUser_closed_input_exits_one demoExternals).2 (demoWorld stdinClosed)
      askContext (str "bastion.example") demoFleet rfl (by decide) rfl rfl⟩

/-! ## The region -/

theorem sliceTo_dropLast (z : GoString) (h : z ≠ []) :
    sliceTo z ((z.length : Int) - 1) = ⟨[], some (z.take (z.length - 1))⟩ := by
  have hpos : 0 < z.length := List.length_pos.mpr h
  unfold sliceTo
  rw [if_pos (by omega)]
  have hnat : ((z.length : Int) - 1).toNat = z.length - 1 := by omega
  rw [hnat]
  rfl

/-- C6 as stated fails: for the zone `us-east-1a` the region returned is `us-east-1`, the zone
without its last byte, not the zone without its last two bytes. -/
theorem ThisRegion_strips_one_not_two :
    (ThisRegion (demoStartup "us-east-1a")).result = some (str "us-east-1", none)
    ∧ (ThisRegion (demoStartup "us-east-1a")).result
        ≠ some ((str "us-east-1a").take ((str "us-east-1a").length - 2), none) := by
  decide

/-- C6, amended: when the metadata lookup returns a non-empty zone `z` without error,
`ThisRegion` returns the first `len(z)-1` bytes of `z` and no error; when the lookup returns an
error, `ThisRegion` returns the lookup's result and that error. -/
theorem ThisRegion_strips_last_byte (s : Startup) :
    (∀ z : GoString,
        (Metadata s (str "placement/availability-zone")).result = some (z, none) → z ≠ [] →
        (ThisRegion s).result = some (z.take (z.length - 1), none))
    ∧ (∀ (z : GoString) (err : GoError),
        (Metadata s (str "placement/availability-zone")).result = some (z, some err) →
        (ThisRegion s).result = some (z, some err)) := by
  constructor
  · intro z hm hz
    unfold ThisRegion
    rw [bind_of_result _ _ _ hm]
    simp [sliceTo_dropLast z hz, bind_mk_some, pure_eq]
  · intro z err hm
    unfold ThisRegion
    rw [bind_of_result _ _ _ hm]
    simp [pure_eq]

/-- Instance of C6 (amended) on the zone `us-east-1a` and on a failing lookup. -/
theorem ThisRegion_strips_last_byte_witness :
    (ThisRegion (demoStartup "us-east-1a")).result
        = some ((str "us-east-1a").take ((str "us-east-1a").length - 1), none)
    ∧ (ThisRegion unreachableStartup).result = some ([], some (str "no route to host")) :=
  ⟨(ThisRegion_strips_last_byte (demoStartup "us-east-1a")).1 (str "us-east-1a")
      (by decide) (by decide),
   (ThisRegion_strips_last_byte unreachableStartup).2 [] (str "no route to host")
      (by decide)⟩

/-! ## Rows drawn and lines erased -/

theorem Render_length {R : Type} (E : Externals R) (header : List GoString)
    (rows : List (List GoString)) (hhead : E.rowLines header = 1)
    (hrows : ∀ row ∈ rows, E.rowLines row = 1) :
    (Render E header rows).length = rows.length + 4 := by
  have hjoin : ((rows.map (fun row =>
      List.replicate (E.rowLines row) (TableLine.cells row))).flatten).length = rows.length := by
    induction rows with
    | nil => rfl
    | cons row rest ih =>
      have h1 : E.rowLines row = 1 := hrows row (List.mem_cons_self _ _)
      have hrest := ih (fun q hq => hrows q (List.mem_cons_of_mem _ hq))
      simp only [List.map_cons, List.flatten_cons, List.length_append, List.length_replicate,
        List.length_cons, h1, hrest]
      omega
  simp only [Render, List.length_append, List.length_replicate, List.length_cons,
    List.length_nil, hhead, hjoin]
  omega

theorem tableRows_length {R : Type} (E : Externals R) (l : List Instance) :
    (tableRows E l).length = l.length := by
  simp [tableRows]

theorem tableRows_get {R : Type} (E : Externals R) (l : List Instance) (n : Nat) (i : Instance)
    (h : l.get? n = some i) : (tableRows E l).get? n = some (tableRow E n i) := by
  simp only [List.get?_eq_getElem?] at h ⊢
  simp [tableRows, List.getElem?_enumFrom, h]

theorem tableRows_mem {R : Type} (E : Externals R) (l : List Instance) (row : List GoString)
    (h : row ∈ tableRows E l) : ∃ n, ∃ i ∈ l, row = tableRow E n i := by
  simp only [tableRows, List.mem_map] at h
  obtain ⟨p, hp, hrow⟩ := h
  have hmem : p.2 ∈ l := by
    have hget := (List.mem_enumFrom hp).2.2
    rw [hget]
    exact List.getElem_mem _
  exact ⟨p.1, p.2, hmem, hrow.symm⟩

theorem loop_draws {R : Type} (E : Externals R) (rs : List R) :
    ∀ (goUp : Unit → Proc Unit) (ups : List Event), goUp () = ⟨ups, some ()⟩ →
      (∀ r ∈ rs, ∀ i ∈ E.InstancesFromEC2Result r, 2 ≤ i.InstanceID.length) →
      (Watch.loop E goUp (rs.map (fun r => ⟨.ok r, false⟩))).trace.filterMap screenOp
        = match rs with
          | [] => []
          | _ :: _ => ups.filterMap screenOp
              ++ watchDraws (rs.map (fun r =>
                  ((Render E tableHeader (tableRows E (E.InstancesFromEC2Result r))).length,
                   (E.InstancesFromEC2Result r).length))) := by
  induction rs with
  | nil =>
    intro goUp ups _ _
    simp [Watch.loop]
  | cons r rest ih =>
    intro goUp ups hups hids
    have hr : ∀ i ∈ E.InstancesFromEC2Result r, 2 ≤ i.InstanceID.length :=
      hids r (List.mem_cons_self _ _)
    have hrest : ∀ q ∈ rest, ∀ i ∈ E.InstancesFromEC2Result q, 2 ≤ i.InstanceID.length :=
      fun q hq => hids q (List.mem_cons_of_mem _ hq)
    have hnext := ih (fun _ => CursorUp ((E.InstancesFromEC2Result r).length + N_TABLE_DECORATIONS))
      [.CursorUp ((E.InstancesFromEC2Result r).length + N_TABLE_DECORATIONS)] rfl hrest
    rw [List.map_cons, Watch_loop_ok E goUp _ _ r rfl, hups,
      ShowInstances_of_prefixed E _ hr]
    simp only [bind_mk_some, Bool.false_eq_true, if_false, List.filterMap_append]
    rw [hnext]
    cases rest with
    | nil => simp [screenOp, watchDraws]
    | cons q rest2 => simp [screenOp, watchDraws, N_TABLE_DECORATIONS]

/-- C8 as stated fails: an instance whose id is shorter than two bytes makes `ShowInstances`
fault at `InstanceID[2:]`; no row is appended and nothing is rendered. -/
theorem ShowInstances_short_id_faults :
    ShowInstances demoExternals [shortIdInstance]
        = ⟨[Event.Panic (str "slice bounds out of range")], none⟩
    ∧ ¬ ∃ lines, Event.TableRender lines
        ∈ (ShowInstances demoExternals [shortIdInstance]).trace := by
  constructor
  · decide
  · rintro ⟨lines, h⟩
    have hrun : ShowInstances demoExternals [shortIdInstance]
        = ⟨[Event.Panic (str "slice bounds out of range")], none⟩ := by decide
    rw [hrun] at h
    simp at h

/-- With a table library that wraps a long cell, the cursor goes up by less than was drawn: one
instance with a long name is drawn on six lines, and the next cycle goes up five. -/
theorem Watch_wrapped_row_is_left_over :
    (Watch wrappingExternals
        ([[longNameInstance], []].map (fun r => ⟨.ok r, false⟩))).trace.filterMap screenOp
      = [ScreenOp.drew 6, ScreenOp.up 5, ScreenOp.drew 4] := by
  decide

/-- C8, amended: for every list of `N ≥ 0` instances whose ids have at least two bytes,
`ShowInstances` hands the table library exactly `N` rows, row `n` built from index `n` and
`instances[n]`, in the order given, and renders once; when the library draws the header and
each of these rows on one line, the render draws `N + N_TABLE_DECORATIONS` lines. In a `Watch`
over such instance lists nothing is erased before the first table, each table is drawn once,
and between two tables the cursor moves up by the instance count of the earlier cycle plus 4,
not that of the current one; when the library draws the header and every row on one line,
that is exactly the number of lines the earlier render drew. -/
theorem ShowInstances_rows_and_redraw {R : Type} (E : Externals R) :
    (∀ instances : List Instance, (∀ i ∈ instances, 2 ≤ i.InstanceID.length) →
      ∃ rows : List (List GoString),
        ShowInstances E instances
          = ⟨[Event.TableRender (Render E tableHeader rows)], some ()⟩ ∧
        rows.length = instances.length ∧
        (∀ (n : Nat) (i : Instance), instances.get? n = some i →
          rows.get? n = some (tableRow E n i)) ∧
        (E.rowLines tableHeader = 1 → (∀ row ∈ rows, E.rowLines row = 1) →
          ((Render E tableHeader rows).length : Int)
            = instances.length + N_TABLE_DECORATIONS))
    ∧ (∀ rs : List R,
        (∀ r ∈ rs, ∀ i ∈ E.InstancesFromEC2Result r, 2 ≤ i.InstanceID.length) →
        (Watch E (rs.map (fun r => ⟨.ok r, false⟩))).trace.filterMap screenOp
          = watchDraws (rs.map (fun r =>
              ((Render E tableHeader (tableRows E (E.InstancesFromEC2Result r))).length,
               (E.InstancesFromEC2Result r).length))))
    ∧ (∀ rs : List R,
        (∀ r ∈ rs, ∀ i ∈ E.InstancesFromEC2Result r, 2 ≤ i.InstanceID.length) →
        E.rowLines tableHeader = 1 →
        (∀ r ∈ rs, ∀ i ∈ E.InstancesFromEC2Result r, ∀ n, E.rowLines (tableRow E n i) = 1) →
        (Watch E (rs.map (fun r => ⟨.ok r, false⟩))).trace.filterMap screenOp
          = watchDraws (rs.map (fun r =>
              ((E.InstancesFromEC2Result r).length + 4,
               (E.InstancesFromEC2Result r).length)))) := by
  have hwatch : ∀ rs : List R,
      (∀ r ∈ rs, ∀ i ∈ E.InstancesFromEC2Result r, 2 ≤ i.InstanceID.length) →
      (Watch E (rs.map (fun r => ⟨.ok r, false⟩))).trace.filterMap screenOp
        = watchDraws (rs.map (fun r =>
            ((Render E tableHeader (tableRows E (E.InstancesFromEC2Result r))).length,
             (E.InstancesFromEC2Result r).length))) := by
    intro rs hids
    have h := loop_draws E rs (fun _ => pure ()) [] rfl hids
    unfold Watch
    rw [h]
    cases rs <;> simp [watchDraws]
  refine ⟨?_, hwatch, ?_⟩
  · intro instances hids
    refine ⟨tableRows E instances, ShowInstances_of_prefixed E instances hids,
      tableRows_length E instances, tableRows_get E instances, ?_⟩
    intro hhead hrows
    rw [Render_length E _ _ hhead hrows, tableRows_length]
    simp [N_TABLE_DECORATIONS]
  · intro rs hids hhead hrows
    rw [hwatch rs hids]
    congr 1
    apply List.map_congr_left
    intro r hr
    have hlen : (Render E tableHeader (tableRows E (E.InstancesFromEC2Result r))).length
        = (E.InstancesFromEC2Result r).length + 4 := by
      rw [Render_length E _ _ hhead, tableRows_length]
      intro row hrow
      obtain ⟨n, i, hi, hrow⟩ := tableRows_mem E _ row hrow
      rw [hrow]
      exact hrows r hr i hi n
    rw [hlen]

/-- Instance of C8 (amended) on the two demo instances and on a watch of three tables. -/
theorem ShowInstances_rows_and_redraw_witness :
    (∃ rows : List (List GoString),
        ShowInstances demoExternals demoFleet
          = ⟨[Event.TableRender (Render demoExternals tableHeader rows)], some ()⟩ ∧
        rows.length = demoFleet.length ∧
        (∀ (n : Nat) (i : Instance), demoFleet.get? n = some i →
          rows.get? n = some (tableRow demoExternals n i)) ∧
        (demoExternals.rowLines tableHeader = 1 →
          (∀ row ∈ rows, demoExternals.rowLines row = 1) →
          ((Render demoExternals tableHeader rows).length : Int)
            = demoFleet.length + N_TABLE_DECORATIONS))
    ∧ (Watch demoExternals
          ([demoFleet, [], demoFleet].map (fun r => ⟨.ok r, false⟩))).trace.filterMap screenOp
        = [ScreenOp.drew 6, ScreenOp.up 6, ScreenOp.drew 4, ScreenOp.up 4, ScreenOp.drew 6]
    ∧ (Watch demoExternals
          ([[], demoFleet].map (fun r => ⟨.ok r, false⟩))).trace.filterMap screenOp
        = [ScreenOp.drew 4, ScreenOp.up 4, ScreenOp.drew 6] :=
  ⟨(ShowInstances_rows_and_redraw demoExternals).1 demoFleet (by decide),
   (ShowInstances_rows_and_redraw demoExternals).2.1 [demoFleet, [], demoFleet] (by decide),
   (ShowInstances_rows_and_redraw demoExternals).2.2 [[], demoFleet] (by decide) rfl
      (fun _ _ _ _ _ => rfl)⟩

/-! ## The main action -/

theorem addAgentAuth_returns (s : Startup) (auths : Nat) :
    ∃ t n, addAgentAuth s auths = ⟨t, some n⟩ ∧ Event.DescribeInstancesCall ∉ t := by
  unfold addAgentAuth
  by_cases h : s.authSock.length > 0
  · cases hd : s.agentDialErr <;>
      simp [h, hd, emit, bind_mk_some, pure_eq]
  · simp [h, emit, bind_mk_some, pure_eq]

theorem mainAction_refused {R : Type} (E : Externals R) (s : Startup) (w : World R)
    (c : Context) (t : List Event) (n : Nat) (err : GoError)
    (ha : addAgentAuth s 0 = ⟨t, some n⟩)
    (hd : s.sshDialErr (c.bastion ++ str ":22") = some err) :
    mainAction E s w c
      = ⟨t ++ [Event.SSHDial (c.bastion ++ str ":22"),
          Event.Fatal [str "Failed to connect to bastion %q: %v", c.bastion, err]], none⟩ := by
  unfold mainAction
  rw [ha]
  simp only [bind_mk_some, emit]
  rw [hd]
  simp [halt]

theorem mainAction_dialed {R : Type} (E : Externals R) (s : Startup) (w : World R)
    (c : Context) (t : List Event) (n : Nat)
    (ha : addAgentAuth s 0 = ⟨t, some n⟩)
    (hd : s.sshDialErr (c.bastion ++ str ":22") = none) :
    ∃ rest, (mainAction E s w c).trace
      = (t ++ [Event.SSHDial (c.bastion ++ str ":22"), Event.SetTunnelTransport]) ++ rest := by
  unfold mainAction
  rw [ha]
  simp only [bind_mk_some, emit]
  rw [hd]
  simp only [bind_mk_some]
  have key : ∀ x : List Event,
      t ++ ([Event.SSHDial (c.bastion ++ str ":22")] ++ ([Event.SetTunnelTransport] ++ x))
        = (t ++ [Event.SSHDial (c.bastion ++ str ":22"), Event.SetTunnelTransport]) ++ x := by
    intro x
    simp
  exact ⟨_, key _⟩

/-- C9 as stated fails: with the bastion flag given as the empty string, and with no bastion
supplied at all, the main action still dials (`:22`, `<unset>:22`) and installs the tunnel's
dial as the HTTP transport before the directory call. -/
theorem mainAction_dials_without_bastion :
    (mainAction demoExternals (demoStartup "us-east-1a") (demoWorld stdinClosed)
        emptyBastionContext).trace.take 5
      = [Event.Getenv (str "SSH_AUTH_SOCK"), Event.SSHDial (str ":22"),
         Event.SetTunnelTransport,
         Event.HTTPGet (str "http://169.254.169.254/latest/meta-data/placement/availability-zone"),
         Event.BodyClose]
    ∧ (mainAction demoExternals (demoStartup "us-east-1a") (demoWorld stdinClosed)
        emptyBastionContext).trace.get? 5 = some Event.DescribeInstancesCall
    ∧ (mainAction demoExternals (demoStartup "us-east-1a") (demoWorld stdinClosed)
        noBastionContext).trace.take 3
      = [Event.Getenv (str "SSH_AUTH_SOCK"), Event.SSHDial (str "<unset>:22"),
         Event.SetTunnelTransport]
    ∧ mainAction demoExternals refusedStartup (demoWorld stdinClosed) emptyBastionContext
      = ⟨[Event.Getenv (str "SSH_AUTH_SOCK"), Event.SSHDial (str ":22"),
          Event.Fatal [str "Failed to connect to bastion %q: %v", [],
            str "connection refused"]], none⟩ := by
  decide

/-- C9, amended: the main action always performs `ssh.Dial` to the bastion value followed by
`:22`, whatever that value is; when the dial fails the run ends with the fatal diagnostic and
makes no directory call; and any directory call is preceded by the dial and, right after it,
the installation of the tunnel's dial as the HTTP transport. -/
theorem mainAction_always_tunnels {R : Type} (E : Externals R) (s : Startup) (w : World R)
    (c : Context) :
    Event.SSHDial (c.bastion ++ str ":22") ∈ (mainAction E s w c).trace
    ∧ (∀ err : GoError, s.sshDialErr (c.bastion ++ str ":22") = some err →
        Event.DescribeInstancesCall ∉ (mainAction E s w c).trace ∧
        (mainAction E s w c).trace.getLast?
          = some (Event.Fatal [str "Failed to connect to bastion %q: %v", c.bastion, err]))
    ∧ (∀ pre post : List Event,
        (mainAction E s w c).trace = pre ++ Event.DescribeInstancesCall :: post →
        ∃ p1 p2, pre = p1 ++ Event.SSHDial (c.bastion ++ str ":22")
          :: Event.SetTunnelTransport :: p2) := by
  obtain ⟨t, n, ha, hcall⟩ := addAgentAuth_returns s 0
  cases hd : s.sshDialErr (c.bastion ++ str ":22") with
  | some err =>
    have hrun := mainAction_refused E s w c t n err ha hd
    refine ⟨by rw [hrun]; simp, ?_, ?_⟩
    · intro err2 h2
      cases h2
      rw [hrun]
      exact ⟨by simp [hcall], by simp⟩
    · intro pre post h
      rw [hrun] at h
      have hmem : Event.DescribeInstancesCall
          ∈ pre ++ Event.DescribeInstancesCall :: post := by simp
      rw [← h] at hmem
      simp [hcall] at hmem
  | none =>
    obtain ⟨rest, hrun⟩ := mainAction_dialed E s w c t n ha hd
    refine ⟨by rw [hrun]; simp, ?_, ?_⟩
    · intro err h
      cases h
    · intro pre post h
      rw [hrun] at h
      rcases split_cases _ _ pre post _ h with ⟨m, hm, _⟩ | ⟨m, hm, _⟩
      · have hmem : Event.DescribeInstancesCall
            ∈ t ++ [Event.SSHDial (c.bastion ++ str ":22"), Event.SetTunnelTransport] := by
          rw [hm]
          simp
        simp [hcall] at hmem
      · exact ⟨t, m, by rw [hm]; simp⟩

/-- Instance of C9 (amended) for an empty bastion value, refused and accepted. -/
theorem mainAction_always_tunnels_witness :
    (Event.DescribeInstancesCall
        ∉ (mainAction demoExternals refusedStartup (demoWorld stdinClosed)
            emptyBastionContext).trace ∧
      (mainAction demoExternals refusedStartup (demoWorld stdinClosed)
          emptyBastionContext).trace.getLast?
        = some (Event.Fatal [str "Failed to connect to bastion %q: %v",
            emptyBastionContext.bastion, str "connection refused"]))
    ∧ (∃ p1 p2, (mainAction demoExternals (demoStartup "us-east-1a") (demoWorld stdinClosed)
          emptyBastionContext).trace.take 5
        = p1 ++ Event.SSHDial (emptyBastionContext.bastion ++ str ":22")
          :: Event.SetTunnelTransport :: p2) :=
  ⟨(mainAction_always_tunnels demoExternals refusedStartup (demoWorld stdinClosed)
      emptyBastionContext).2.1 (str "connection refused") rfl,
   (mainAction_always_tunnels demoExternals (demoStartup "us-east-1a") (demoWorld stdinClosed)
      emptyBastionContext).2.2
      ((mainAction demoExternals (demoStartup "us-east-1a") (demoWorld stdinClosed)
        emptyBastionContext).trace.take 5)
      ((mainAction demoExternals (demoStartup "us-east-1a") (demoWorld stdinClosed)
        emptyBastionContext).trace.drop 6) (by decide)⟩

end Jump
